import Mathlib

/-!
Shallow embedding of the GRDB.swift C compatibility-shim layer.

The repository consists of thin C headers that wrap a few SQLite C APIs
(error-log callback registration, double-quoted-string-literal toggling,
snapshot APIs) behind non-variadic functions, plus a small Mach thread-count
utility used by the tests.  Calls into the wrapped SQLite library and into the
Mach kernel are external effects; we model them with explicit oracles
(structures of functions giving the external call results) and an explicit
trace of the external calls each shim performs.  Preprocessor selection
(`SQLITE_VERSION_NUMBER >= 3029000`, `SQLITE_ENABLE_SNAPSHOT`) is modelled by
an explicit parameter of the corresponding definition.

Each source file gets its own namespace:
  * `SupportConfig`      — src/Support/grdb_config.h
  * `SQLCipherConfig`    — src/Support/SQLCipher_config.h
  * `SQLiteCustomConfig` — src/SQLiteCustom/grdb_config.h
  * `CSQLiteShim`        — src/Sources/CSQLite/shim.h
  * `Sqlite3Shim`        — src/Sources/sqlite3/shim.h
  * `SPMSQLCipherConfig` — src/Sources/SQLCipher/include/SQLCipher_config.h
  * `GrdbConfigC`        — src/Support/grdb_config.c
and the thread-count utility (src/Tests/GRDBTests/getThreadsCount.c) lives at
the top level of `GRDBShims`.
-/

namespace GRDBShims

/-- Pointer values crossing the FFI boundary; 0 is the NULL pointer. -/
abbrev Ptr := Nat

/-- Status code `SQLITE_OK` (0) from sqlite3.h. -/
def SQLITE_OK : Int := 0

/-- Status code `SQLITE_MISUSE` (21) from sqlite3.h. -/
def SQLITE_MISUSE : Int := 21

/-- Configuration verb `SQLITE_CONFIG_LOG` (16) from sqlite3.h. -/
def SQLITE_CONFIG_LOG : Int := 16

/-- Database configuration verb `SQLITE_DBCONFIG_DQS_DML` (1013) from sqlite3.h. -/
def SQLITE_DBCONFIG_DQS_DML : Int := 1013

/-- Database configuration verb `SQLITE_DBCONFIG_DQS_DDL` (1014) from sqlite3.h. -/
def SQLITE_DBCONFIG_DQS_DDL : Int := 1014

/-- One call to the variadic `sqlite3_config(SQLITE_CONFIG_LOG, callback, pCtx)`:
the verb, the callback function pointer and the context pointer actually passed. -/
structure ConfigCall where
  op : Int
  callback : Ptr
  context : Ptr
  deriving DecidableEq, Repr

/-- One call to the variadic `sqlite3_db_config(db, verb, value, pResult)` with one
of the two DQS verbs: the connection, the verb, the integer value and the result
pointer actually passed. -/
structure DbConfigCall where
  db : Ptr
  verb : Int
  value : Int
  pResult : Ptr
  deriving DecidableEq, Repr

/-- The statuses the wrapped library would return from `sqlite3_db_config`,
as a function of the four arguments.  The shims never inspect these statuses. -/
abbrev DbConfigLib := Ptr → Int → Int → Ptr → Int

/-- Calls into the wrapped SQLite library's snapshot entry points. -/
inductive LibCall where
  | snapshotGet (db : Ptr) (zSchema : Ptr) (ppSnapshot : Ptr)
  | snapshotFree (ppSnapshot : Ptr)
  | snapshotCmp (p1 : Ptr) (p2 : Ptr)
  deriving DecidableEq, Repr

/-- Results the wrapped SQLite library would return from its snapshot entry
points, as functions of the arguments passed. -/
structure SQLiteLib where
  snapshot_get : Ptr → Ptr → Ptr → Int
  snapshot_cmp : Ptr → Ptr → Int

namespace SupportConfig

/-- Embedding of `registerErrorLogCallback` from src/Support/grdb_config.h
(lines 10-12): the single `sqlite3_config(SQLITE_CONFIG_LOG, callback, 0)`
call it performs. -/
def registerErrorLogCallback (callback : Ptr) : ConfigCall :=
  ⟨SQLITE_CONFIG_LOG, callback, 0⟩

/-- Embedding of `disableDoubleQuotedStringLiterals` from
src/Support/grdb_config.h.  `version` stands for `SQLITE_VERSION_NUMBER`; the
`if` mirrors the `#if SQLITE_VERSION_NUMBER >= 3029000` preprocessor gate
(lines 14-31).  The library's statuses (`lib` applied to the call arguments)
are computed and dropped, exactly as the C code ignores the two return values;
the second component is the list of `sqlite3_db_config` calls performed. -/
def disableDoubleQuotedStringLiterals (version : Nat) (lib : DbConfigLib) (db : Ptr) :
    Unit × List DbConfigCall :=
  if 3029000 ≤ version then
    let _status1 := lib db SQLITE_DBCONFIG_DQS_DDL 0 0
    let _status2 := lib db SQLITE_DBCONFIG_DQS_DML 0 0
    ((), [⟨db, SQLITE_DBCONFIG_DQS_DDL, 0, 0⟩, ⟨db, SQLITE_DBCONFIG_DQS_DML, 0, 0⟩])
  else
    ((), [])

/-- Embedding of `enableDoubleQuotedStringLiterals` from
src/Support/grdb_config.h (lines 22-27, else-branch line 30). -/
def enableDoubleQuotedStringLiterals (version : Nat) (lib : DbConfigLib) (db : Ptr) :
    Unit × List DbConfigCall :=
  if 3029000 ≤ version then
    let _status1 := lib db SQLITE_DBCONFIG_DQS_DDL 1 0
    let _status2 := lib db SQLITE_DBCONFIG_DQS_DML 1 0
    ((), [⟨db, SQLITE_DBCONFIG_DQS_DDL, 1, 0⟩, ⟨db, SQLITE_DBCONFIG_DQS_DML, 1, 0⟩])
  else
    ((), [])

/-- Embedding of `grdb_snapshot_get` from src/Support/grdb_config.h.
`snapshotEnabled` mirrors `#ifdef SQLITE_ENABLE_SNAPSHOT`.  Both preprocessor
branches have the same body `return sqlite3_snapshot_get(db, zSchema,
ppSnapshot);` (lines 76-82 and 113-119): in the else-branch the header itself
declares `sqlite3_snapshot_get` (lines 100-104, "Assume snapshot apis *are*
defined, but not exposed") and still forwards into the library. -/
def grdb_snapshot_get (snapshotEnabled : Bool) (lib : SQLiteLib)
    (db zSchema ppSnapshot : Ptr) : Int × List LibCall :=
  if snapshotEnabled then
    (lib.snapshot_get db zSchema ppSnapshot, [LibCall.snapshotGet db zSchema ppSnapshot])
  else
    (lib.snapshot_get db zSchema ppSnapshot, [LibCall.snapshotGet db zSchema ppSnapshot])

/-- Embedding of `grdb_snapshot_free` from src/Support/grdb_config.h.  Both
branches forward to `sqlite3_snapshot_free(ppSnapshot)` (lines 84-86 and
121-123). -/
def grdb_snapshot_free (snapshotEnabled : Bool) (ppSnapshot : Ptr) : List LibCall :=
  if snapshotEnabled then
    [LibCall.snapshotFree ppSnapshot]
  else
    [LibCall.snapshotFree ppSnapshot]

/-- Embedding of `grdb_snapshot_cmp` from src/Support/grdb_config.h.  Both
branches forward to `sqlite3_snapshot_cmp(p1, p2)` (lines 88-93 and 125-130). -/
def grdb_snapshot_cmp (snapshotEnabled : Bool) (lib : SQLiteLib)
    (p1 p2 : Ptr) : Int × List LibCall :=
  if snapshotEnabled then
    (lib.snapshot_cmp p1 p2, [LibCall.snapshotCmp p1 p2])
  else
    (lib.snapshot_cmp p1 p2, [LibCall.snapshotCmp p1 p2])

end SupportConfig

namespace SQLCipherConfig

/-- Embedding of `registerErrorLogCallback` from src/Support/SQLCipher_config.h
(lines 10-12). -/
def registerErrorLogCallback (callback : Ptr) : ConfigCall :=
  ⟨SQLITE_CONFIG_LOG, callback, 0⟩

/-- Embedding of `disableDoubleQuotedStringLiterals` from
src/Support/SQLCipher_config.h (lines 14-31). -/
def disableDoubleQuotedStringLiterals (version : Nat) (lib : DbConfigLib) (db : Ptr) :
    Unit × List DbConfigCall :=
  if 3029000 ≤ version then
    let _status1 := lib db SQLITE_DBCONFIG_DQS_DDL 0 0
    let _status2 := lib db SQLITE_DBCONFIG_DQS_DML 0 0
    ((), [⟨db, SQLITE_DBCONFIG_DQS_DDL, 0, 0⟩, ⟨db, SQLITE_DBCONFIG_DQS_DML, 0, 0⟩])
  else
    ((), [])

/-- Embedding of `enableDoubleQuotedStringLiterals` from
src/Support/SQLCipher_config.h (lines 24-27, else-branch line 30). -/
def enableDoubleQuotedStringLiterals (version : Nat) (lib : DbConfigLib) (db : Ptr) :
    Unit × List DbConfigCall :=
  if 3029000 ≤ version then
    let _status1 := lib db SQLITE_DBCONFIG_DQS_DDL 1 0
    let _status2 := lib db SQLITE_DBCONFIG_DQS_DML 1 0
    ((), [⟨db, SQLITE_DBCONFIG_DQS_DDL, 1, 0⟩, ⟨db, SQLITE_DBCONFIG_DQS_DML, 1, 0⟩])
  else
    ((), [])

/-- Embedding of `grdb_snapshot_get` from src/Support/SQLCipher_config.h:
forwards when `SQLITE_ENABLE_SNAPSHOT` is defined (lines 55-61), and is the
stub `return SQLITE_MISUSE;` otherwise (lines 74-80), performing no library
call. -/
def grdb_snapshot_get (snapshotEnabled : Bool) (lib : SQLiteLib)
    (db zSchema ppSnapshot : Ptr) : Int × List LibCall :=
  if snapshotEnabled then
    (lib.snapshot_get db zSchema ppSnapshot, [LibCall.snapshotGet db zSchema ppSnapshot])
  else
    (SQLITE_MISUSE, [])

/-- Embedding of `grdb_snapshot_free` from src/Support/SQLCipher_config.h:
forwards when enabled (lines 63-65), and has an empty body otherwise
(lines 82-83). -/
def grdb_snapshot_free (snapshotEnabled : Bool) (ppSnapshot : Ptr) : List LibCall :=
  if snapshotEnabled then
    [LibCall.snapshotFree ppSnapshot]
  else
    []

/-- Embedding of `grdb_snapshot_cmp` from src/Support/SQLCipher_config.h:
forwards when enabled (lines 67-72), and is the stub `return 0;` otherwise
(lines 85-90). -/
def grdb_snapshot_cmp (snapshotEnabled : Bool) (lib : SQLiteLib)
    (p1 p2 : Ptr) : Int × List LibCall :=
  if snapshotEnabled then
    (lib.snapshot_cmp p1 p2, [LibCall.snapshotCmp p1 p2])
  else
    (0, [])

end SQLCipherConfig

namespace SQLiteCustomConfig

/-- Embedding of `registerErrorLogCallback` from src/SQLiteCustom/grdb_config.h
(lines 8-10). -/
def registerErrorLogCallback (callback : Ptr) : ConfigCall :=
  ⟨SQLITE_CONFIG_LOG, callback, 0⟩

/-- Embedding of `disableDoubleQuotedStringLiterals` from
src/SQLiteCustom/grdb_config.h (lines 12-29). -/
def disableDoubleQuotedStringLiterals (version : Nat) (lib : DbConfigLib) (db : Ptr) :
    Unit × List DbConfigCall :=
  if 3029000 ≤ version then
    let _status1 := lib db SQLITE_DBCONFIG_DQS_DDL 0 0
    let _status2 := lib db SQLITE_DBCONFIG_DQS_DML 0 0
    ((), [⟨db, SQLITE_DBCONFIG_DQS_DDL, 0, 0⟩, ⟨db, SQLITE_DBCONFIG_DQS_DML, 0, 0⟩])
  else
    ((), [])

/-- Embedding of `enableDoubleQuotedStringLiterals` from
src/SQLiteCustom/grdb_config.h (lines 22-25, else-branch line 28). -/
def enableDoubleQuotedStringLiterals (version : Nat) (lib : DbConfigLib) (db : Ptr) :
    Unit × List DbConfigCall :=
  if 3029000 ≤ version then
    let _status1 := lib db SQLITE_DBCONFIG_DQS_DDL 1 0
    let _status2 := lib db SQLITE_DBCONFIG_DQS_DML 1 0
    ((), [⟨db, SQLITE_DBCONFIG_DQS_DDL, 1, 0⟩, ⟨db, SQLITE_DBCONFIG_DQS_DML, 1, 0⟩])
  else
    ((), [])

/-- Embedding of the `sqlite3_snapshot_get` stub that
src/SQLiteCustom/grdb_config.h defines when `SQLITE_ENABLE_SNAPSHOT` is not
set (lines 33-39): the body is `return SQLITE_MISUSE;`, performing no
library call. -/
def sqlite3_snapshot_get (db zSchema ppSnapshot : Ptr) : Int × List LibCall :=
  (SQLITE_MISUSE, [])

/-- Embedding of the `sqlite3_snapshot_free` stub from
src/SQLiteCustom/grdb_config.h (line 40): empty body. -/
def sqlite3_snapshot_free (ppSnapshot : Ptr) : List LibCall :=
  []

/-- Embedding of the `sqlite3_snapshot_cmp` stub from
src/SQLiteCustom/grdb_config.h (lines 41-46): the body is `return 0;`. -/
def sqlite3_snapshot_cmp (p1 p2 : Ptr) : Int × List LibCall :=
  (0, [])

end SQLiteCustomConfig

namespace CSQLiteShim

/-- Embedding of `registerErrorLogCallback` from src/Sources/CSQLite/shim.h
(lines 7-9). -/
def registerErrorLogCallback (callback : Ptr) : ConfigCall :=
  ⟨SQLITE_CONFIG_LOG, callback, 0⟩

/-- Embedding of `disableDoubleQuotedStringLiterals` from
src/Sources/CSQLite/shim.h (lines 11-28). -/
def disableDoubleQuotedStringLiterals (version : Nat) (lib : DbConfigLib) (db : Ptr) :
    Unit × List DbConfigCall :=
  if 3029000 ≤ version then
    let _status1 := lib db SQLITE_DBCONFIG_DQS_DDL 0 0
    let _status2 := lib db SQLITE_DBCONFIG_DQS_DML 0 0
    ((), [⟨db, SQLITE_DBCONFIG_DQS_DDL, 0, 0⟩, ⟨db, SQLITE_DBCONFIG_DQS_DML, 0, 0⟩])
  else
    ((), [])

/-- Embedding of `enableDoubleQuotedStringLiterals` from
src/Sources/CSQLite/shim.h (lines 21-24, else-branch line 27). -/
def enableDoubleQuotedStringLiterals (version : Nat) (lib : DbConfigLib) (db : Ptr) :
    Unit × List DbConfigCall :=
  if 3029000 ≤ version then
    let _status1 := lib db SQLITE_DBCONFIG_DQS_DDL 1 0
    let _status2 := lib db SQLITE_DBCONFIG_DQS_DML 1 0
    ((), [⟨db, SQLITE_DBCONFIG_DQS_DDL, 1, 0⟩, ⟨db, SQLITE_DBCONFIG_DQS_DML, 1, 0⟩])
  else
    ((), [])

end CSQLiteShim

namespace Sqlite3Shim

/-- Embedding of `registerErrorLogCallback` from src/Sources/sqlite3/shim.h
(lines 7-9). -/
def registerErrorLogCallback (callback : Ptr) : ConfigCall :=
  ⟨SQLITE_CONFIG_LOG, callback, 0⟩

end Sqlite3Shim

namespace SPMSQLCipherConfig

/-- Embedding of `_registerErrorLogCallback` from
src/Sources/SQLCipher/include/SQLCipher_config.h (lines 10-12); the C name
carries a leading underscore. -/
def underscoreRegisterErrorLogCallback (callback : Ptr) : ConfigCall :=
  ⟨SQLITE_CONFIG_LOG, callback, 0⟩

/-- Embedding of `_disableDoubleQuotedStringLiterals` from
src/Sources/SQLCipher/include/SQLCipher_config.h (lines 14-31). -/
def underscoreDisableDoubleQuotedStringLiterals (version : Nat) (lib : DbConfigLib)
    (db : Ptr) : Unit × List DbConfigCall :=
  if 3029000 ≤ version then
    let _status1 := lib db SQLITE_DBCONFIG_DQS_DDL 0 0
    let _status2 := lib db SQLITE_DBCONFIG_DQS_DML 0 0
    ((), [⟨db, SQLITE_DBCONFIG_DQS_DDL, 0, 0⟩, ⟨db, SQLITE_DBCONFIG_DQS_DML, 0, 0⟩])
  else
    ((), [])

/-- Embedding of `_enableDoubleQuotedStringLiterals` from
src/Sources/SQLCipher/include/SQLCipher_config.h (lines 24-27, else-branch
line 30). -/
def underscoreEnableDoubleQuotedStringLiterals (version : Nat) (lib : DbConfigLib)
    (db : Ptr) : Unit × List DbConfigCall :=
  if 3029000 ≤ version then
    let _status1 := lib db SQLITE_DBCONFIG_DQS_DDL 1 0
    let _status2 := lib db SQLITE_DBCONFIG_DQS_DML 1 0
    ((), [⟨db, SQLITE_DBCONFIG_DQS_DDL, 1, 0⟩, ⟨db, SQLITE_DBCONFIG_DQS_DML, 1, 0⟩])
  else
    ((), [])

end SPMSQLCipherConfig

namespace GrdbConfigC

/-- Embedding of `registerErrorLogCallback` from src/Support/grdb_config.c
(lines 10-12), the non-inline compiled variant. -/
def registerErrorLogCallback (callback : Ptr) : ConfigCall :=
  ⟨SQLITE_CONFIG_LOG, callback, 0⟩

end GrdbConfigC

/-- Kernel status `KERN_SUCCESS` (0) from mach/kern_return.h. -/
def KERN_SUCCESS : Int := 0

/-- Size in bytes of `thread_act_t` (a 32-bit Mach port name). -/
def sizeof_thread_act_t : Nat := 4

/-- Interpretation of an integer as a 32-bit two's-complement `int`, the
conversion Clang applies when a value outside the signed range is returned
through an `int` (and when a `kern_return_t` is produced). -/
def toInt32 (n : Int) : Int := (n + 2 ^ 31) % 2 ^ 32 - 2 ^ 31

/-- Results of the two Mach kernel calls made by `getThreadsCount`, as an
oracle: the status and written task handle of
`task_for_pid(mach_task_self(), getpid(), &task)`, and, per task argument, the
status, written thread-list address and written thread count of
`task_threads(task, &threadList, &threadCount)`.  Following the Mach
convention, the out-parameters of `task_threads` (the allocated thread list)
are transferred to the caller exactly when its status is `KERN_SUCCESS`. -/
structure MachKernel where
  task_for_pid_ret : Int
  task_for_pid_task : Nat
  task_threads_ret : Nat → Int
  task_threads_list : Nat → Nat
  task_threads_count : Nat → Nat

/-- Calls into the Mach kernel performed by `getThreadsCount`, recording the
values written through the out-parameters. -/
inductive MachEvent where
  | taskForPid (task : Nat)
  | taskThreads (task : Nat) (threadList : Nat) (threadCount : Nat)
  | vmDeallocate (address : Nat) (size : Nat)
  deriving DecidableEq, Repr

/-- Embedding of `getThreadsCount` from src/Tests/GRDBTests/getThreadsCount.c
(lines 6-23).  `task` is a `task_t` (32-bit port name), `threadCount` a
`mach_msg_type_number_t` (unsigned 32-bit), `threadList` an address.  The
function returns -1 as soon as either kernel call's status differs from
`KERN_SUCCESS`; on success it deallocates the thread list with byte size
`threadCount * sizeof(thread_act_t)` and returns `threadCount` through its
`int` return type (hence converted by `toInt32`).  The second component is
the list of kernel calls performed. -/
def getThreadsCount (k : MachKernel) : Int × List MachEvent :=
  let task := k.task_for_pid_task % 2 ^ 32
  if toInt32 k.task_for_pid_ret ≠ KERN_SUCCESS then
    (-1, [MachEvent.taskForPid task])
  else
    let threadList := k.task_threads_list task % 2 ^ 64
    let threadCount := k.task_threads_count task % 2 ^ 32
    if toInt32 (k.task_threads_ret task) ≠ KERN_SUCCESS then
      (-1, [MachEvent.taskForPid task, MachEvent.taskThreads task threadList threadCount])
    else
      (toInt32 threadCount,
        [MachEvent.taskForPid task, MachEvent.taskThreads task threadList threadCount,
          MachEvent.vmDeallocate threadList (threadCount * sizeof_thread_act_t)])

/-- Parser-relevant configuration of one database connection: the two
double-quoted-string acceptance flags, plus a stand-in for every other
per-connection setting (untouched by the DQS verbs). -/
structure ConnState where
  dqs_ddl : Bool
  dqs_dml : Bool
  other : Nat
  deriving DecidableEq, Repr

/-- Modelled from the spec: the effect of one `sqlite3_db_config` call on the
connections.  `sqlite3_db_config` belongs to the wrapped SQLite library, which
is external to this repository ("the wrapped SQLite/SQLCipher engine, which is
out of scope"); per the spec it "toggles acceptance of double-quoted strings
as string literals ... in both DDL and DML statement parsing, for one open
database connection", so a call with a DQS verb sets the named flag of the
named connection to the truth value of `value` and touches nothing else. -/
def applyDbConfig (w : Ptr → ConnState) (c : DbConfigCall) : Ptr → ConnState := fun p =>
  if p = c.db then
    if c.verb = SQLITE_DBCONFIG_DQS_DDL then { w p with dqs_ddl := decide (c.value ≠ 0) }
    else if c.verb = SQLITE_DBCONFIG_DQS_DML then { w p with dqs_dml := decide (c.value ≠ 0) }
    else w p
  else w p

/-- Effect of a sequence of `sqlite3_db_config` calls, applied in order. -/
def applyDbConfigList (w : Ptr → ConnState) (cs : List DbConfigCall) : Ptr → ConnState :=
  cs.foldl applyDbConfig w

/-- Specification-side description of a direct snapshot-acquire call: the
result is the library's own result at the very same arguments, and the one and
only library call performed is that call. -/
def snapshotGetSpec (lib : SQLiteLib) (db zSchema ppSnapshot : Ptr) : Int × List LibCall :=
  (lib.snapshot_get db zSchema ppSnapshot, [LibCall.snapshotGet db zSchema ppSnapshot])

/-- Specification-side description of a direct snapshot-release call. -/
def snapshotFreeSpec (ppSnapshot : Ptr) : List LibCall :=
  [LibCall.snapshotFree ppSnapshot]

/-- Specification-side description of a direct snapshot-compare call. -/
def snapshotCmpSpec (lib : SQLiteLib) (p1 p2 : Ptr) : Int × List LibCall :=
  (lib.snapshot_cmp p1 p2, [LibCall.snapshotCmp p1 p2])

/-- Library oracle whose snapshot entry points all succeed: snapshot-acquire
returns `SQLITE_OK` and snapshot-compare returns 7. -/
def libAllOK : SQLiteLib := ⟨fun _ _ _ => SQLITE_OK, fun _ _ => 7⟩

/-- Claim C2: in every build variant, `registerErrorLogCallback` invokes the
underlying `sqlite3_config` with exactly the three fixed arguments
`SQLITE_CONFIG_LOG`, the caller's callback, and the null context pointer 0,
for every callback value. -/
theorem claim_C2 (callback : Ptr) :
    SupportConfig.registerErrorLogCallback callback = ⟨SQLITE_CONFIG_LOG, callback, 0⟩ ∧
    SQLCipherConfig.registerErrorLogCallback callback = ⟨SQLITE_CONFIG_LOG, callback, 0⟩ ∧
    SQLiteCustomConfig.registerErrorLogCallback callback = ⟨SQLITE_CONFIG_LOG, callback, 0⟩ ∧
    CSQLiteShim.registerErrorLogCallback callback = ⟨SQLITE_CONFIG_LOG, callback, 0⟩ ∧
    Sqlite3Shim.registerErrorLogCallback callback = ⟨SQLITE_CONFIG_LOG, callback, 0⟩ ∧
    SPMSQLCipherConfig.underscoreRegisterErrorLogCallback callback
      = ⟨SQLITE_CONFIG_LOG, callback, 0⟩ ∧
    GrdbConfigC.registerErrorLogCallback callback = ⟨SQLITE_CONFIG_LOG, callback, 0⟩ ∧
    (SupportConfig.registerErrorLogCallback callback).context = 0 :=
  ⟨rfl, rfl, rfl, rfl, rfl, rfl, rfl, rfl⟩

/-- Claim C1, counterexample: the claim asserts that in a build without
snapshot support every snapshot-acquire shim — among them `grdb_snapshot_get`
of src/Support/grdb_config.h (lines 113-119) — returns `SQLITE_MISUSE` without
calling into the underlying library.  That shim instead forwards into the
library: against a library whose acquire succeeds, at database handle 1,
schema pointer 2 and output pointer 3, it returns `SQLITE_OK` (not
`SQLITE_MISUSE`) and its library-call trace is nonempty. -/
theorem claim_C1_counterexample :
    (SupportConfig.grdb_snapshot_get false libAllOK 1 2 3).1 ≠ SQLITE_MISUSE ∧
    (SupportConfig.grdb_snapshot_get false libAllOK 1 2 3).2 ≠ [] := by
  decide

/-- Claim C1, amended: in a build without snapshot support, the stubbed
variants (`sqlite3_snapshot_get` of src/SQLiteCustom/grdb_config.h and
`grdb_snapshot_get` of src/Support/SQLCipher_config.h) return `SQLITE_MISUSE`
for every database handle, schema name and output pointer without calling into
the underlying library; the `grdb_snapshot_get` of src/Support/grdb_config.h
instead forwards all three arguments unchanged to the locally declared
`sqlite3_snapshot_get` of the library and returns its status unchanged. -/
theorem claim_C1_amended (lib : SQLiteLib) (db zSchema ppSnapshot : Ptr) :
    SQLiteCustomConfig.sqlite3_snapshot_get db zSchema ppSnapshot = (SQLITE_MISUSE, []) ∧
    SQLCipherConfig.grdb_snapshot_get false lib db zSchema ppSnapshot = (SQLITE_MISUSE, []) ∧
    SupportConfig.grdb_snapshot_get false lib db zSchema ppSnapshot =
      (lib.snapshot_get db zSchema ppSnapshot, [LibCall.snapshotGet db zSchema ppSnapshot]) :=
  ⟨rfl, rfl, rfl⟩

/-- Claim C6: in a build without snapshot support, the stubbed
snapshot-compare shims (`sqlite3_snapshot_cmp` of src/SQLiteCustom/grdb_config.h
and `grdb_snapshot_cmp` of src/Support/SQLCipher_config.h) return the neutral
ordering value 0 for every pair of snapshot handles, performing no library
call and signalling no failure. -/
theorem claim_C6 (lib : SQLiteLib) (p1 p2 : Ptr) :
    SQLiteCustomConfig.sqlite3_snapshot_cmp p1 p2 = (0, []) ∧
    SQLCipherConfig.grdb_snapshot_cmp false lib p1 p2 = (0, []) :=
  ⟨rfl, rfl⟩

/-- Claim C7, counterexample: the claim asserts that in a build without
snapshot support every snapshot-release shim — among them `grdb_snapshot_free`
of src/Support/grdb_config.h (lines 121-123) — is a no-op that changes no
state.  That shim instead invokes the library's `sqlite3_snapshot_free` on the
handle: at handle value 5 its library-call trace is nonempty, and is exactly
the release call on 5. -/
theorem claim_C7_counterexample :
    SupportConfig.grdb_snapshot_free false 5 ≠ [] ∧
    SupportConfig.grdb_snapshot_free false 5 = [LibCall.snapshotFree 5] := by
  constructor
  · decide
  · rfl

/-- Claim C7, amended: in a build without snapshot support, the stubbed
variants (`sqlite3_snapshot_free` of src/SQLiteCustom/grdb_config.h and
`grdb_snapshot_free` of src/Support/SQLCipher_config.h) are no-ops for every
handle value, performing no library call; the `grdb_snapshot_free` of
src/Support/grdb_config.h instead forwards the handle unchanged to the locally
declared `sqlite3_snapshot_free` of the library, releasing the snapshot. -/
theorem claim_C7_amended (ppSnapshot : Ptr) :
    SQLiteCustomConfig.sqlite3_snapshot_free ppSnapshot = [] ∧
    SQLCipherConfig.grdb_snapshot_free false ppSnapshot = [] ∧
    SupportConfig.grdb_snapshot_free false ppSnapshot = [LibCall.snapshotFree ppSnapshot] :=
  ⟨rfl, rfl, rfl⟩

/-- Claim C8: in a build with snapshot support, each `grdb_snapshot_xxx` shim
(in both src/Support/grdb_config.h and src/Support/SQLCipher_config.h) is
extensionally equal to a direct call of the underlying library function of the
same name: for every input it performs exactly that library call with all
arguments passed through unchanged, and returns the library's status/result
unmodified. -/
theorem claim_C8 (lib : SQLiteLib) (db zSchema ppSnapshot p1 p2 : Ptr) :
    SupportConfig.grdb_snapshot_get true lib db zSchema ppSnapshot
      = snapshotGetSpec lib db zSchema ppSnapshot ∧
    SupportConfig.grdb_snapshot_free true ppSnapshot = snapshotFreeSpec ppSnapshot ∧
    SupportConfig.grdb_snapshot_cmp true lib p1 p2 = snapshotCmpSpec lib p1 p2 ∧
    SQLCipherConfig.grdb_snapshot_get true lib db zSchema ppSnapshot
      = snapshotGetSpec lib db zSchema ppSnapshot ∧
    SQLCipherConfig.grdb_snapshot_free true ppSnapshot = snapshotFreeSpec ppSnapshot ∧
    SQLCipherConfig.grdb_snapshot_cmp true lib p1 p2 = snapshotCmpSpec lib p1 p2 :=
  ⟨rfl, rfl, rfl, rfl, rfl, rfl⟩

/-- Claim C4: on a linked library version below 3029000, both
`enableDoubleQuotedStringLiterals` and `disableDoubleQuotedStringLiterals` are
silent no-ops for every database handle: they return normally (void, no error
signalled), perform no `sqlite3_db_config` call, and leave the configuration
of every connection unchanged. -/
theorem claim_C4 (version : Nat) (hv : version < 3029000) (lib : DbConfigLib) (db : Ptr)
    (w : Ptr → ConnState) :
    SupportConfig.enableDoubleQuotedStringLiterals version lib db = ((), []) ∧
    SupportConfig.disableDoubleQuotedStringLiterals version lib db = ((), []) ∧
    SQLiteCustomConfig.enableDoubleQuotedStringLiterals version lib db = ((), []) ∧
    SQLiteCustomConfig.disableDoubleQuotedStringLiterals version lib db = ((), []) ∧
    applyDbConfigList w (SupportConfig.enableDoubleQuotedStringLiterals version lib db).2 = w ∧
    applyDbConfigList w (SupportConfig.disableDoubleQuotedStringLiterals version lib db).2 = w ∧
    applyDbConfigList w (SQLiteCustomConfig.enableDoubleQuotedStringLiterals version lib db).2 = w ∧
    applyDbConfigList w (SQLiteCustomConfig.disableDoubleQuotedStringLiterals version lib db).2 = w := by
  have h : ¬ (3029000 ≤ version) := Nat.not_le.mpr hv
  simp [SupportConfig.enableDoubleQuotedStringLiterals,
    SupportConfig.disableDoubleQuotedStringLiterals,
    SQLiteCustomConfig.enableDoubleQuotedStringLiterals,
    SQLiteCustomConfig.disableDoubleQuotedStringLiterals,
    applyDbConfigList, h]

/-- Witness for claim C4 at version 3028000, a trivial status oracle,
database handle 1 and a constant connection state. -/
theorem claim_C4_witness :
    SupportConfig.enableDoubleQuotedStringLiterals 3028000 (fun _ _ _ _ => 0) 1 = ((), []) :=
  (claim_C4 3028000 (by decide) (fun _ _ _ _ => 0) 1 (fun _ => ⟨false, false, 0⟩)).1

/-- Claim C5: on a linked library version at or above 3029000,
`enableDoubleQuotedStringLiterals` sets both the DDL and the DML
double-quoted-string acceptance flags of the given connection to true, and
`disableDoubleQuotedStringLiterals` sets both to false; every other
per-connection setting and every other connection are left unchanged.  Shown
for the variants in src/Support/grdb_config.h and src/Sources/CSQLite/shim.h. -/
theorem claim_C5 (version : Nat) (hv : 3029000 ≤ version) (lib : DbConfigLib) (db : Ptr)
    (w : Ptr → ConnState) :
    applyDbConfigList w (SupportConfig.enableDoubleQuotedStringLiterals version lib db).2 db
      = { w db with dqs_ddl := true, dqs_dml := true } ∧
    applyDbConfigList w (SupportConfig.disableDoubleQuotedStringLiterals version lib db).2 db
      = { w db with dqs_ddl := false, dqs_dml := false } ∧
    applyDbConfigList w (CSQLiteShim.enableDoubleQuotedStringLiterals version lib db).2 db
      = { w db with dqs_ddl := true, dqs_dml := true } ∧
    applyDbConfigList w (CSQLiteShim.disableDoubleQuotedStringLiterals version lib db).2 db
      = { w db with dqs_ddl := false, dqs_dml := false } ∧
    (∀ p, p ≠ db →
      applyDbConfigList w (SupportConfig.enableDoubleQuotedStringLiterals version lib db).2 p
          = w p ∧
      applyDbConfigList w (SupportConfig.disableDoubleQuotedStringLiterals version lib db).2 p
          = w p ∧
      applyDbConfigList w (CSQLiteShim.enableDoubleQuotedStringLiterals version lib db).2 p
          = w p ∧
      applyDbConfigList w (CSQLiteShim.disableDoubleQuotedStringLiterals version lib db).2 p
          = w p) := by
  refine ⟨?_, ?_, ?_, ?_, ?_⟩
  · simp [SupportConfig.enableDoubleQuotedStringLiterals, applyDbConfigList, applyDbConfig,
      SQLITE_DBCONFIG_DQS_DDL, SQLITE_DBCONFIG_DQS_DML, hv]
  · simp [SupportConfig.disableDoubleQuotedStringLiterals, applyDbConfigList, applyDbConfig,
      SQLITE_DBCONFIG_DQS_DDL, SQLITE_DBCONFIG_DQS_DML, hv]
  · simp [CSQLiteShim.enableDoubleQuotedStringLiterals, applyDbConfigList, applyDbConfig,
      SQLITE_DBCONFIG_DQS_DDL, SQLITE_DBCONFIG_DQS_DML, hv]
  · simp [CSQLiteShim.disableDoubleQuotedStringLiterals, applyDbConfigList, applyDbConfig,
      SQLITE_DBCONFIG_DQS_DDL, SQLITE_DBCONFIG_DQS_DML, hv]
  · intro p hp
    refine ⟨?_, ?_, ?_, ?_⟩ <;>
      simp [SupportConfig.enableDoubleQuotedStringLiterals,
        SupportConfig.disableDoubleQuotedStringLiterals,
        CSQLiteShim.enableDoubleQuotedStringLiterals,
        CSQLiteShim.disableDoubleQuotedStringLiterals,
        applyDbConfigList, applyDbConfig, hv, hp]

/-- Witness for claim C5 at version 3029000, a trivial status oracle,
database handle 4 and the constant connection state with both flags off and
other-settings value 7. -/
theorem claim_C5_witness :
    applyDbConfigList (fun _ => ⟨false, false, 7⟩)
        (SupportConfig.enableDoubleQuotedStringLiterals 3029000 (fun _ _ _ _ => 0) 4).2 4
      = ⟨true, true, 7⟩ :=
  (claim_C5 3029000 (by decide) (fun _ _ _ _ => 0) 4 (fun _ => ⟨false, false, 7⟩)).1

/-- Claim C10: on a version at or above 3029000, both DQS toggles discard the
statuses of the two underlying `sqlite3_db_config` calls: the functions'
entire observable outcome (void return and the pair of calls performed) is
identical for any two status oracles, and both configuration calls are always
performed, the second regardless of the first's status. -/
theorem claim_C10 (version : Nat) (hv : 3029000 ≤ version) (lib lib2 : DbConfigLib)
    (db : Ptr) :
    SupportConfig.enableDoubleQuotedStringLiterals version lib db
      = SupportConfig.enableDoubleQuotedStringLiterals version lib2 db ∧
    SupportConfig.disableDoubleQuotedStringLiterals version lib db
      = SupportConfig.disableDoubleQuotedStringLiterals version lib2 db ∧
    SQLiteCustomConfig.enableDoubleQuotedStringLiterals version lib db
      = SQLiteCustomConfig.enableDoubleQuotedStringLiterals version lib2 db ∧
    SQLiteCustomConfig.disableDoubleQuotedStringLiterals version lib db
      = SQLiteCustomConfig.disableDoubleQuotedStringLiterals version lib2 db ∧
    SupportConfig.enableDoubleQuotedStringLiterals version lib db
      = ((), [⟨db, SQLITE_DBCONFIG_DQS_DDL, 1, 0⟩, ⟨db, SQLITE_DBCONFIG_DQS_DML, 1, 0⟩]) ∧
    SupportConfig.disableDoubleQuotedStringLiterals version lib db
      = ((), [⟨db, SQLITE_DBCONFIG_DQS_DDL, 0, 0⟩, ⟨db, SQLITE_DBCONFIG_DQS_DML, 0, 0⟩]) ∧
    SQLiteCustomConfig.enableDoubleQuotedStringLiterals version lib db
      = ((), [⟨db, SQLITE_DBCONFIG_DQS_DDL, 1, 0⟩, ⟨db, SQLITE_DBCONFIG_DQS_DML, 1, 0⟩]) ∧
    SQLiteCustomConfig.disableDoubleQuotedStringLiterals version lib db
      = ((), [⟨db, SQLITE_DBCONFIG_DQS_DDL, 0, 0⟩, ⟨db, SQLITE_DBCONFIG_DQS_DML, 0, 0⟩]) := by
  simp [SupportConfig.enableDoubleQuotedStringLiterals,
    SupportConfig.disableDoubleQuotedStringLiterals,
    SQLiteCustomConfig.enableDoubleQuotedStringLiterals,
    SQLiteCustomConfig.disableDoubleQuotedStringLiterals, hv]

/-- Witness for claim C10 at version 3029000, database handle 2, against two
status oracles, one all-success and one all-failure. -/
theorem claim_C10_witness :
    SupportConfig.enableDoubleQuotedStringLiterals 3029000 (fun _ _ _ _ => 0) 2
      = SupportConfig.enableDoubleQuotedStringLiterals 3029000 (fun _ _ _ _ => 1) 2 :=
  (claim_C10 3029000 (by decide) (fun _ _ _ _ => 0) (fun _ _ _ _ => 1) 2).1

/-- Interpretation of an unsigned value below `2 ^ 31` through a signed 32-bit
return is the identity. -/
theorem toInt32_of_lt (n : Nat) (h : n < 2 ^ 31) : toInt32 n = n := by
  unfold toInt32
  omega

/-- Kernel oracle on which both calls succeed: `task_for_pid` writes task 1,
`task_threads` reports 3 threads in a list at address 4096. -/
def kernelOK : MachKernel := ⟨0, 1, fun _ => 0, fun _ => 4096, fun _ => 3⟩

/-- Kernel oracle on which `task_for_pid` is denied with status 5
(`KERN_FAILURE`). -/
def kernelDenied : MachKernel := ⟨5, 1, fun _ => 0, fun _ => 4096, fun _ => 3⟩

/-- Kernel oracle on which both calls succeed and `task_threads` reports
`2 ^ 31` threads. -/
def kernelCountBig : MachKernel := ⟨0, 1, fun _ => 0, fun _ => 4096, fun _ => 2 ^ 31⟩

/-- Unfolding of `getThreadsCount` when `task_for_pid` does not succeed: the
sentinel -1 is returned and only the one kernel call appears in the trace. -/
theorem getThreadsCount_fail1 (k : MachKernel)
    (h1 : toInt32 k.task_for_pid_ret ≠ KERN_SUCCESS) :
    getThreadsCount k = (-1, [MachEvent.taskForPid (k.task_for_pid_task % 2 ^ 32)]) := by
  simp only [getThreadsCount]
  rw [if_pos h1]

/-- Unfolding of `getThreadsCount` when `task_for_pid` succeeds but
`task_threads` does not: the sentinel -1 is returned. -/
theorem getThreadsCount_fail2 (k : MachKernel)
    (h1 : toInt32 k.task_for_pid_ret = KERN_SUCCESS)
    (h2 : toInt32 (k.task_threads_ret (k.task_for_pid_task % 2 ^ 32)) ≠ KERN_SUCCESS) :
    getThreadsCount k =
      (-1, [MachEvent.taskForPid (k.task_for_pid_task % 2 ^ 32),
        MachEvent.taskThreads (k.task_for_pid_task % 2 ^ 32)
          (k.task_threads_list (k.task_for_pid_task % 2 ^ 32) % 2 ^ 64)
          (k.task_threads_count (k.task_for_pid_task % 2 ^ 32) % 2 ^ 32)]) := by
  simp only [getThreadsCount]
  rw [if_neg (not_not_intro h1), if_pos h2]

/-- Unfolding of `getThreadsCount` when both kernel calls succeed: the thread
list is deallocated and the reported count is returned through `int`. -/
theorem getThreadsCount_success (k : MachKernel)
    (h1 : toInt32 k.task_for_pid_ret = KERN_SUCCESS)
    (h2 : toInt32 (k.task_threads_ret (k.task_for_pid_task % 2 ^ 32)) = KERN_SUCCESS) :
    getThreadsCount k =
      (toInt32 ((k.task_threads_count (k.task_for_pid_task % 2 ^ 32) % 2 ^ 32 : Nat)),
        [MachEvent.taskForPid (k.task_for_pid_task % 2 ^ 32),
          MachEvent.taskThreads (k.task_for_pid_task % 2 ^ 32)
            (k.task_threads_list (k.task_for_pid_task % 2 ^ 32) % 2 ^ 64)
            (k.task_threads_count (k.task_for_pid_task % 2 ^ 32) % 2 ^ 32),
          MachEvent.vmDeallocate (k.task_threads_list (k.task_for_pid_task % 2 ^ 32) % 2 ^ 64)
            ((k.task_threads_count (k.task_for_pid_task % 2 ^ 32) % 2 ^ 32)
              * sizeof_thread_act_t)]) := by
  simp only [getThreadsCount]
  rw [if_neg (not_not_intro h1), if_neg (not_not_intro h2)]

/-- Claim C3, counterexample: the claim asserts that when both kernel calls
succeed, `getThreadsCount` returns the thread count reported by the kernel.
On a kernel run on which both calls succeed and the reported
`mach_msg_type_number_t` count is `2 ^ 31`, the count does not fit the
function's `int` return type and the function returns `-(2 ^ 31)` instead of
the reported count. -/
theorem claim_C3_counterexample :
    toInt32 kernelCountBig.task_for_pid_ret = KERN_SUCCESS ∧
    toInt32 (kernelCountBig.task_threads_ret (kernelCountBig.task_for_pid_task % 2 ^ 32))
      = KERN_SUCCESS ∧
    kernelCountBig.task_threads_count (kernelCountBig.task_for_pid_task % 2 ^ 32) = 2 ^ 31 ∧
    (getThreadsCount kernelCountBig).1 = -(2 ^ 31) ∧
    (getThreadsCount kernelCountBig).1
      ≠ (kernelCountBig.task_threads_count (kernelCountBig.task_for_pid_task % 2 ^ 32) : Int) := by
  have hs := getThreadsCount_success kernelCountBig (by decide) (by decide)
  refine ⟨by decide, by decide, by decide, ?_, ?_⟩
  · rw [hs]
    decide
  · rw [hs]
    decide

/-- Claim C3, amended: `getThreadsCount` returns the sentinel -1 (a normal
return) whenever either kernel call's status is not `KERN_SUCCESS`; when both
succeed it returns the kernel's reported thread count converted through the
function's signed 32-bit `int` return type, which equals the reported count
whenever that count is below `2 ^ 31`. -/
theorem claim_C3_amended (k : MachKernel) :
    (toInt32 k.task_for_pid_ret ≠ KERN_SUCCESS → (getThreadsCount k).1 = -1) ∧
    (toInt32 k.task_for_pid_ret = KERN_SUCCESS →
      toInt32 (k.task_threads_ret (k.task_for_pid_task % 2 ^ 32)) ≠ KERN_SUCCESS →
      (getThreadsCount k).1 = -1) ∧
    (toInt32 k.task_for_pid_ret = KERN_SUCCESS →
      toInt32 (k.task_threads_ret (k.task_for_pid_task % 2 ^ 32)) = KERN_SUCCESS →
      (getThreadsCount k).1
        = toInt32 ((k.task_threads_count (k.task_for_pid_task % 2 ^ 32) % 2 ^ 32 : Nat))) ∧
    (toInt32 k.task_for_pid_ret = KERN_SUCCESS →
      toInt32 (k.task_threads_ret (k.task_for_pid_task % 2 ^ 32)) = KERN_SUCCESS →
      k.task_threads_count (k.task_for_pid_task % 2 ^ 32) % 2 ^ 32 < 2 ^ 31 →
      (getThreadsCount k).1
        = (k.task_threads_count (k.task_for_pid_task % 2 ^ 32) % 2 ^ 32 : Nat)) := by
  refine ⟨fun h1 => ?_, fun h1 h2 => ?_, fun h1 h2 => ?_, fun h1 h2 h3 => ?_⟩
  · rw [getThreadsCount_fail1 k h1]
  · rw [getThreadsCount_fail2 k h1 h2]
  · rw [getThreadsCount_success k h1 h2]
  · rw [getThreadsCount_success k h1 h2]
    exact toInt32_of_lt _ h3

/-- Witness for claim C3: on the denied kernel the sentinel -1 is returned;
on the all-success kernel reporting 3 threads, 3 is returned. -/
theorem claim_C3_amended_witness :
    (getThreadsCount kernelDenied).1 = -1 ∧ (getThreadsCount kernelOK).1 = 3 := by
  constructor
  · exact (claim_C3_amended kernelDenied).1 (by decide)
  · have h := (claim_C3_amended kernelOK).2.2.2 (by decide) (by decide) (by decide)
    simpa [kernelOK] using h

/-- Claim C9: whenever the kernel hands `getThreadsCount` a thread list (that
is, exactly when `task_threads` returns `KERN_SUCCESS`), the function performs
the matching `vm_deallocate` on that list's address with byte size
`threadCount * sizeof(thread_act_t)` before returning; and no `vm_deallocate`
is performed on any path on which no list was handed over.  Hence at every
return the function holds no live thread-list allocation. -/
theorem claim_C9 (k : MachKernel) :
    (toInt32 k.task_for_pid_ret = KERN_SUCCESS →
      toInt32 (k.task_threads_ret (k.task_for_pid_task % 2 ^ 32)) = KERN_SUCCESS →
      MachEvent.vmDeallocate (k.task_threads_list (k.task_for_pid_task % 2 ^ 32) % 2 ^ 64)
          ((k.task_threads_count (k.task_for_pid_task % 2 ^ 32) % 2 ^ 32) * sizeof_thread_act_t)
        ∈ (getThreadsCount k).2) ∧
    (∀ a s, MachEvent.vmDeallocate a s ∈ (getThreadsCount k).2 →
      toInt32 k.task_for_pid_ret = KERN_SUCCESS ∧
      toInt32 (k.task_threads_ret (k.task_for_pid_task % 2 ^ 32)) = KERN_SUCCESS) := by
  by_cases h1 : toInt32 k.task_for_pid_ret = KERN_SUCCESS
  · by_cases h2 : toInt32 (k.task_threads_ret (k.task_for_pid_task % 2 ^ 32)) = KERN_SUCCESS
    · refine ⟨fun _ _ => ?_, fun a s _ => ⟨h1, h2⟩⟩
      rw [getThreadsCount_success k h1 h2]
      simp
    · refine ⟨fun _ h2c => absurd h2c h2, fun a s hmem => ?_⟩
      rw [getThreadsCount_fail2 k h1 h2] at hmem
      simp at hmem
  · refine ⟨fun h1c _ => absurd h1c h1, fun a s hmem => ?_⟩
    rw [getThreadsCount_fail1 k h1] at hmem
    simp at hmem

/-- Witness for claim C9 on the all-success kernel: the trace contains the
deallocation of the list at address 4096 with size 3 * 4 = 12 bytes. -/
theorem claim_C9_witness :
    MachEvent.vmDeallocate 4096 12 ∈ (getThreadsCount kernelOK).2 := by
  have h := (claim_C9 kernelOK).1 (by decide) (by decide)
  simpa [kernelOK, sizeof_thread_act_t] using h

end GRDBShims
